import Mathlib

/-!
Verification of the shared game engine of the Arduino/MicroPython fishing
game (repository variants `src/Project.py` and `src/src/Sender.py`).

Shallow embedding conventions:
* `ticks_ms()` is modelled by an explicit `now : Nat` parameter (milliseconds
  on an unbounded monotonic clock); `ticks_diff(now, s)` becomes Nat
  subtraction `now - s` (for `now < s` Python yields a negative value and the
  `>= duration` test fails, which agrees with Nat truncation to `0`).
* `urandom.randint` draws are modelled by an explicit list of pre-drawn
  values; the caller contract (`randint(0, NUM_FISH - 1)` in `Sender.py`,
  `randint(1, NUM_FISH)` in `Project.py`) becomes a hypothesis bounding every
  draw.  Operations that run the resampling loop return `Option`: `none`
  when the supplied draw list is exhausted before the loop exits.
* A timer callback may mutate its own timer; `Timer.update` therefore takes
  the callback's effect on the timer as a function argument `cb`.  A callback
  that does not touch its timer is `fun t => t`.
* `esp.send(BROADCAST_PEER, msg)` is modelled observationally: the Sender
  game state carries a `sent` log of broadcast payloads, each send appends.
* Pure I/O (prints, LCD/7-segment writes, LED pin writes, sleeps) has no
  game-visible effect and is not modelled.
-/

/-- Game states, the string constants "IDLE" / "PLAYING" / "GAME_OVER"
used by both variants. -/
inductive GState where
  | IDLE
  | PLAYING
  | GAME_OVER
deriving DecidableEq

/-- `GAME_DURATION_MS = 30000` (both variants). -/
def GAME_DURATION_MS : Nat := 30000

/-- `FISH_DURATION_MS = 5000` (both variants). -/
def FISH_DURATION_MS : Nat := 5000

/-- `NUM_FISH = 5` (both variants); as `Int` because fish ids live with the
`-1` sentinel. -/
def NUM_FISH : Int := 5

/-- `HALL_THRESHOLD = 28000` from `src/Project.py`. -/
def HALL_THRESHOLD : Nat := 28000

/-- The digit characters accepted by the serial handlers (`ch in '12345'`). -/
def digitChars : List Char := ['1', '2', '3', '4', '5']

/-- Python `int(ch)` for a digit character. -/
def intOfDigit (ch : Char) : Int := (ch.toNat : Int) - 48

/-- The resampling loop shared by both `spawn_new_fish` variants:
`while self.current_fish == old_fish or self.current_fish == -1:
   self.current_fish = urandom.randint(...)`.
The loop body always runs at least once (initially `current_fish == old_fish`)
and exits with the first draw that differs from `old` and from `-1`; `none`
when the supplied draw list is exhausted first. -/
def spawnDraw (old : Int) : List Int → Option Int
  | [] => none
  | d :: rest => if d ≠ old ∧ d ≠ -1 then some d else spawnDraw old rest

namespace Sender

/-- The `Timer` class of `src/src/Sender.py` (fields of `__init__`). -/
structure Timer where
  start_time : Option Nat
  duration_ms : Option Nat
  is_running : Bool
  one_shot : Bool
deriving DecidableEq

/-- `Timer(duration_ms, one_shot)` constructor. -/
def Timer.mkTimer (duration : Option Nat) (one_shot : Bool) : Timer :=
  { start_time := none, duration_ms := duration, is_running := false,
    one_shot := one_shot }

/-- `Timer.start`: record the reference instant and set running. -/
def Timer.start (t : Timer) (now : Nat) : Timer :=
  { t with start_time := some now, is_running := true }

/-- `Timer.stop` (Sender variant): clear running and the reference instant. -/
def Timer.stop (t : Timer) : Timer :=
  { t with is_running := false, start_time := none }

/-- `Timer.elapsed_ms`: 0 when never started or not running, else
`ticks_diff(now, start_time)`. -/
def Timer.elapsed_ms (t : Timer) (now : Nat) : Nat :=
  match t.start_time with
  | none => 0
  | some s => if t.is_running = false then 0 else now - s

/-- `Timer.has_ended`: false when no duration is set or not running, else
`elapsed_ms >= duration_ms`. -/
def Timer.has_ended (t : Timer) (now : Nat) : Bool :=
  match t.duration_ms with
  | none => false
  | some d => if t.is_running = false then false else decide (d ≤ t.elapsed_ms now)

/-- `Timer.update`: return early when not running; on detected expiry invoke
the callback (whose effect on this very timer is `cb`), then stop a one-shot
timer, or restart a repeating one.  The returned flag reports whether the
callback fired during this poll. -/
def Timer.update (t : Timer) (now : Nat) (cb : Timer → Timer) : Timer × Bool :=
  if t.is_running = false then (t, false)
  else if t.has_ended now = true then
    (if (cb t).one_shot = true then ((cb t).stop, true) else ((cb t).start now, true))
  else (t, false)

/-- Repeated polling of a timer whose callback does not touch the timer
(the situation of the generic one-shot claim): fold `update` over a list of
poll instants, counting how many polls fired the callback. -/
def Timer.runPolls : Timer → List Nat → Timer × Nat
  | t, [] => (t, 0)
  | t, now :: rest =>
    let step := t.update now (fun x => x)
    let r := Timer.runPolls step.1 rest
    (r.1, (if step.2 = true then 1 else 0) + r.2)

/-- A one-shot timer of duration `d` that `start()` was called on at
instant `t0`. -/
def startedOneShot (d t0 : Nat) : Timer := (Timer.mkTimer (some d) true).start t0

/-- The game state of `FishingGame` in `src/src/Sender.py` (`__init__`
fields), plus the observational log `sent` of ESP-NOW broadcast payloads. -/
structure FishingGame where
  state : GState
  score : Nat
  current_fish : Int
  sensor_triggered : Bool
  game_timer : Timer
  fish_timer : Timer
  display_timer : Timer
  sent : List String
deriving DecidableEq

/-- Payload of the spawn broadcast: `str(self.current_fish + 1)`. -/
def fishMsg (f : Int) : String := toString (f + 1)

/-- Broadcasts of `start_game`'s blocking start animation, in order:
two "Strt" blinks, the 3-2-1 countdown, and the "Go" flash, each an `ALL`
followed by an `OFF`. -/
def startAnim : List String :=
  ["ALL", "OFF", "ALL", "OFF", "ALL", "OFF", "ALL", "OFF", "ALL", "OFF", "ALL", "OFF"]

/-- Broadcasts of `end_game`'s end animation: four `ALL`/`OFF` blinks then a
final `OFF`. -/
def endAnim : List String :=
  ["ALL", "OFF", "ALL", "OFF", "ALL", "OFF", "ALL", "OFF", "OFF"]

/-- `FishingGame.reset_game` (Sender): back to IDLE, zero score, no fish,
stop all three timers, broadcast `OFF`. -/
def reset_game (g : FishingGame) : FishingGame :=
  { g with state := GState.IDLE, score := 0, current_fish := -1,
           game_timer := g.game_timer.stop,
           fish_timer := g.fish_timer.stop,
           display_timer := g.display_timer.stop,
           sent := g.sent ++ ["OFF"] }

/-- `FishingGame.spawn_new_fish` (Sender): resample a fish id via `spawnDraw`
(draws come from `randint(0, NUM_FISH - 1)`), start the fish timer, clear the
trigger lock, broadcast the new fish id. -/
def spawn_new_fish (g : FishingGame) (now : Nat) (draws : List Int) :
    Option FishingGame :=
  match spawnDraw g.current_fish draws with
  | none => none
  | some f =>
    some { g with current_fish := f,
                  fish_timer := g.fish_timer.start now,
                  sensor_triggered := false,
                  sent := g.sent ++ [fishMsg f] }

/-- `FishingGame.start_game` (Sender): guarded by `state != "PLAYING"`; play
the start animation, enter PLAYING with zero score, start the game and
display timers, then spawn the first fish. -/
def start_game (g : FishingGame) (now : Nat) (draws : List Int) :
    Option FishingGame :=
  if g.state ≠ GState.PLAYING then
    spawn_new_fish
      { g with state := GState.PLAYING, score := 0,
               game_timer := g.game_timer.start now,
               display_timer := g.display_timer.start now,
               sent := g.sent ++ startAnim } now draws
  else some g

/-- `FishingGame.catch_fish` (Sender): ignored unless PLAYING; otherwise
increment the score, stop the fish timer, broadcast `OFF`, and spawn the
next fish.  The caller checks that the caught id equals `current_fish`. -/
def catch_fish (g : FishingGame) (now : Nat) (draws : List Int) :
    Option FishingGame :=
  if g.state ≠ GState.PLAYING then some g
  else
    spawn_new_fish
      { g with score := g.score + 1,
               fish_timer := g.fish_timer.stop,
               sent := g.sent ++ ["OFF"] } now draws

/-- `FishingGame.fish_timeout` (Sender), the fish timer's callback:
broadcast `OFF` and spawn the next fish. -/
def fish_timeout (g : FishingGame) (now : Nat) (draws : List Int) :
    Option FishingGame :=
  spawn_new_fish { g with sent := g.sent ++ ["OFF"] } now draws

/-- `FishingGame.end_game` (Sender), the game timer's callback: enter
GAME_OVER, clear the fish, stop all three timers, play the end animation. -/
def end_game (g : FishingGame) : FishingGame :=
  { g with state := GState.GAME_OVER, current_fish := -1,
           game_timer := g.game_timer.stop,
           fish_timer := g.fish_timer.stop,
           display_timer := g.display_timer.stop,
           sent := g.sent ++ endAnim }

/-- The serial branch of `FishingGame.check_inputs` (Sender): a digit
catches only when `int(ch) - 1 == self.current_fish`; `s` starts; `r`
resets; anything else is ignored. -/
def check_inputs_serial (g : FishingGame) (ch : Char) (now : Nat)
    (draws : List Int) : Option FishingGame :=
  if ch ∈ digitChars then
    (if intOfDigit ch - 1 = g.current_fish then catch_fish g now draws else some g)
  else if ch = 's' then start_game g now draws
  else if ch = 'r' then some (reset_game g)
  else some g

end Sender

namespace Project

/-- The `Timer` class of `src/Project.py`; same fields as the Sender variant
but `stop` keeps the reference instant and `elapsed_ms` does not test the
running flag. -/
structure Timer where
  start_time : Option Nat
  duration_ms : Option Nat
  is_running : Bool
  one_shot : Bool
deriving DecidableEq

/-- `Timer.start` (Project). -/
def Timer.start (t : Timer) (now : Nat) : Timer :=
  { t with start_time := some now, is_running := true }

/-- `Timer.stop` (Project): clears only the running flag. -/
def Timer.stop (t : Timer) : Timer :=
  { t with is_running := false }

/-- `Timer.elapsed_ms` (Project): 0 when never started, else
`ticks_diff(now, start_time)`. -/
def Timer.elapsed_ms (t : Timer) (now : Nat) : Nat :=
  match t.start_time with
  | none => 0
  | some s => now - s

/-- `Timer.has_ended` (Project). -/
def Timer.has_ended (t : Timer) (now : Nat) : Bool :=
  match t.duration_ms with
  | none => false
  | some d => if t.is_running = false then false else decide (d ≤ t.elapsed_ms now)

/-- `Timer.update` (Project); identical control flow to the Sender variant. -/
def Timer.update (t : Timer) (now : Nat) (cb : Timer → Timer) : Timer × Bool :=
  if t.is_running = false then (t, false)
  else if t.has_ended now = true then
    (if (cb t).one_shot = true then ((cb t).stop, true) else ((cb t).start now, true))
  else (t, false)

/-- The game state of `FishingGame` in `src/Project.py` (`__init__` fields;
the two button-debounce latches belong to `check_buttons`, which no claim
touches, and are omitted). -/
structure FishingGame where
  state : GState
  score : Nat
  current_fish : Int
  sensor_triggered : Bool
  game_timer : Timer
  fish_timer : Timer
  lcd_timer : Timer
  led_timer : Timer
  led_state : Bool
deriving DecidableEq

/-- `FishingGame.reset_game` (Project): back to IDLE, zero score, no fish,
stop all four timers. -/
def reset_game (g : FishingGame) : FishingGame :=
  { g with state := GState.IDLE, score := 0, current_fish := -1,
           game_timer := g.game_timer.stop,
           fish_timer := g.fish_timer.stop,
           lcd_timer := g.lcd_timer.stop,
           led_timer := g.led_timer.stop }

/-- `FishingGame.spawn_new_fish` (Project): resample a fish id via
`spawnDraw` (draws come from `randint(1, NUM_FISH)`), start the fish
timer. -/
def spawn_new_fish (g : FishingGame) (now : Nat) (draws : List Int) :
    Option FishingGame :=
  match spawnDraw g.current_fish draws with
  | none => none
  | some f =>
    some { g with current_fish := f, fish_timer := g.fish_timer.start now }

/-- `FishingGame.start_game` (Project): guarded by `state != "PLAYING"`;
enter PLAYING with zero score, start the game and LCD timers, spawn. -/
def start_game (g : FishingGame) (now : Nat) (draws : List Int) :
    Option FishingGame :=
  if g.state ≠ GState.PLAYING then
    spawn_new_fish
      { g with state := GState.PLAYING, score := 0,
               game_timer := g.game_timer.start now,
               lcd_timer := g.lcd_timer.start now } now draws
  else some g

/-- `FishingGame.catch_fish` (Project): ignored unless PLAYING; a hit
(`fish_num == current_fish`) increments the score, stops the fish timer and
spawns the next fish; a miss only prints. -/
def catch_fish (g : FishingGame) (fish_num : Int) (now : Nat)
    (draws : List Int) : Option FishingGame :=
  if g.state ≠ GState.PLAYING then some g
  else if fish_num = g.current_fish then
    spawn_new_fish
      { g with score := g.score + 1, fish_timer := g.fish_timer.stop } now draws
  else some g

/-- `FishingGame.check_hall_sensor` (Project): only while PLAYING; a "near"
analog sample (`val < HALL_THRESHOLD`) with a clear trigger lock sets the
lock and catches the current fish; an "away" sample clears the lock. -/
def check_hall_sensor (g : FishingGame) (val : Nat) (now : Nat)
    (draws : List Int) : Option FishingGame :=
  if g.state ≠ GState.PLAYING then some g
  else if val < HALL_THRESHOLD ∧ g.sensor_triggered = false then
    catch_fish { g with sensor_triggered := true } g.current_fish now draws
  else if ¬ (val < HALL_THRESHOLD) then
    some { g with sensor_triggered := false }
  else some g

/-- `FishingGame.check_serial_input` (Project): a digit catches that fish id
directly; `s` starts only from IDLE; `r` resets; anything else is
ignored. -/
def check_serial_input (g : FishingGame) (ch : Char) (now : Nat)
    (draws : List Int) : Option FishingGame :=
  if ch ∈ digitChars then catch_fish g (intOfDigit ch) now draws
  else if ch = 's' then
    (if g.state = GState.IDLE then start_game g now draws else some g)
  else if ch = 'r' then some (reset_game g)
  else some g

/-- Iterated hall-sensor processing across loop iterations: each element is
the sampled analog value together with the instant and the random draws of
that iteration. -/
def hallRun : FishingGame → List (Nat × Nat × List Int) → Option FishingGame
  | g, [] => some g
  | g, s :: rest =>
    match check_hall_sensor g s.1 s.2.1 s.2.2 with
    | none => none
    | some g1 => hallRun g1 rest

end Project

/-- A stopped Project timer of duration `d`, as built by `Timer(d)`. -/
def pTimer (d : Nat) : Project.Timer :=
  { start_time := none, duration_ms := some d, is_running := false,
    one_shot := true }

/-- A sample mid-session PLAYING game for the Sender variant, used by
witnesses: fish 2 active, both gameplay timers running. -/
def sampleSPlaying : Sender.FishingGame :=
  { state := GState.PLAYING, score := 3, current_fish := 2,
    sensor_triggered := false,
    game_timer := (Sender.Timer.mkTimer (some GAME_DURATION_MS) true).start 100,
    fish_timer := (Sender.Timer.mkTimer (some FISH_DURATION_MS) true).start 7000,
    display_timer := (Sender.Timer.mkTimer (some 100) false).start 7100,
    sent := [] }

/-- Result of `spawn_new_fish` on `sampleSPlaying` at instant 8000 with
draws `[2, 4]` (the first draw collides with the active fish 2 and is
resampled). -/
def sampleSpawnRes : Sender.FishingGame :=
  { sampleSPlaying with current_fish := 4,
                        fish_timer := sampleSPlaying.fish_timer.start 8000,
                        sensor_triggered := false,
                        sent := sampleSPlaying.sent ++ [Sender.fishMsg 4] }

/-- Result of a successful serial catch (`ch = '3'`) on `sampleSPlaying` at
instant 8000 with draws `[2, 4]`. -/
def sampleCatchRes : Sender.FishingGame :=
  { state := GState.PLAYING, score := 4, current_fish := 4,
    sensor_triggered := false,
    game_timer := sampleSPlaying.game_timer,
    fish_timer := (sampleSPlaying.fish_timer.stop).start 8000,
    display_timer := sampleSPlaying.display_timer,
    sent := ["OFF", Sender.fishMsg 4] }

/-- A sample GAME_OVER game for the Project variant, used by the C8
counterexample. -/
def samplePGameOver : Project.FishingGame :=
  { state := GState.GAME_OVER, score := 7, current_fish := -1,
    sensor_triggered := false,
    game_timer := pTimer GAME_DURATION_MS,
    fish_timer := pTimer FISH_DURATION_MS,
    lcd_timer := pTimer 200,
    led_timer := { start_time := some 31000, duration_ms := some 300,
                   is_running := true, one_shot := false },
    led_state := false }

/-- A sample mid-session PLAYING game for the Project variant: fish 3
active, trigger lock clear. -/
def samplePPlaying : Project.FishingGame :=
  { state := GState.PLAYING, score := 1, current_fish := 3,
    sensor_triggered := false,
    game_timer := (pTimer GAME_DURATION_MS).start 0,
    fish_timer := (pTimer FISH_DURATION_MS).start 6000,
    lcd_timer := { start_time := some 6100, duration_ms := some 200,
                   is_running := true, one_shot := false },
    led_timer := { start_time := none, duration_ms := some 300,
                   is_running := false, one_shot := false },
    led_state := false }

/-- Result of `check_hall_sensor` on `samplePPlaying` with a near sample
(value 100) at instant 6500 and draws `[3, 2]`: the lock is set and fish 3
is caught, spawning fish 2. -/
def sampleHallRes : Project.FishingGame :=
  { samplePPlaying with score := 2, current_fish := 2,
                        sensor_triggered := true,
                        fish_timer := (samplePPlaying.fish_timer.stop).start 6500 }

/-- Result of serial start from `samplePGameOver` re-based to IDLE, at
instant 40000 with draws `[2]`. -/
def pStartRes : Project.FishingGame :=
  { samplePGameOver with state := GState.PLAYING, score := 0,
                         current_fish := 2,
                         game_timer := samplePGameOver.game_timer.start 40000,
                         fish_timer := samplePGameOver.fish_timer.start 40000,
                         lcd_timer := samplePGameOver.lcd_timer.start 40000 }

/-- Result of a Sender serial start from `sampleSPlaying` re-based to
GAME_OVER, at instant 40000 with draws `[4]`. -/
def sStartRes : Sender.FishingGame :=
  { sampleSPlaying with state := GState.PLAYING, score := 0,
                        current_fish := 4,
                        sensor_triggered := false,
                        game_timer := sampleSPlaying.game_timer.start 40000,
                        fish_timer := sampleSPlaying.fish_timer.start 40000,
                        display_timer := sampleSPlaying.display_timer.start 40000,
                        sent := Sender.startAnim ++ [Sender.fishMsg 4] }

theorem spawnDraw_spec (old : Int) :
    ∀ (draws : List Int) (r : Int), spawnDraw old draws = some r →
      r ∈ draws ∧ r ≠ old ∧ r ≠ -1 := by
  intro draws
  induction draws with
  | nil => intro r h; exact absurd h (by simp [spawnDraw])
  | cons d rest ih =>
    intro r h
    simp only [spawnDraw] at h
    split at h
    · rename_i hc
      injection h with h1
      subst h1
      exact ⟨List.mem_cons_self _ _, hc⟩
    · rename_i hc
      obtain ⟨hm, hne⟩ := ih r h
      exact ⟨List.mem_cons_of_mem d hm, hne⟩

namespace Sender

theorem spawn_new_fish_spec (g g1 : FishingGame) (now : Nat)
    (draws : List Int) (h : spawn_new_fish g now draws = some g1) :
    ∃ f, spawnDraw g.current_fish draws = some f
       ∧ g1 = { g with current_fish := f,
                       fish_timer := g.fish_timer.start now,
                       sensor_triggered := false,
                       sent := g.sent ++ [fishMsg f] } := by
  rw [spawn_new_fish] at h
  cases hsd : spawnDraw g.current_fish draws with
  | none => rw [hsd] at h; cases h
  | some f =>
    rw [hsd] at h
    injection h with h1
    exact ⟨f, rfl, h1.symm⟩

theorem Timer.update_not_running (t : Timer) (now : Nat) (cb : Timer → Timer)
    (h : t.is_running = false) : t.update now cb = (t, false) := by
  simp [Timer.update, h]

theorem Timer.runPolls_not_running (t : Timer) (polls : List Nat)
    (h : t.is_running = false) : t.runPolls polls = (t, 0) := by
  induction polls with
  | nil => rfl
  | cons p rest ih => simp [Timer.runPolls, Timer.update_not_running t p _ h, ih]

theorem startedOneShot_has_ended (d t0 now : Nat) :
    (startedOneShot d t0).has_ended now = decide (d ≤ now - t0) := by
  simp [startedOneShot, Timer.mkTimer, Timer.start, Timer.has_ended, Timer.elapsed_ms]

theorem startedOneShot_update_early (d t0 now : Nat) (cb : Timer → Timer)
    (hd : 0 < d) (h : now < t0 + d) :
    (startedOneShot d t0).update now cb = (startedOneShot d t0, false) := by
  have hend : (startedOneShot d t0).has_ended now = false := by
    rw [startedOneShot_has_ended]
    simp only [decide_eq_false_iff_not]
    omega
  simp [Timer.update, startedOneShot, Timer.mkTimer, Timer.start] at hend ⊢
  simp [hend]

theorem startedOneShot_update_late (d t0 now : Nat) (h : t0 + d ≤ now) :
    (startedOneShot d t0).update now (fun x => x)
      = ((startedOneShot d t0).stop, true) := by
  have hend : (startedOneShot d t0).has_ended now = true := by
    rw [startedOneShot_has_ended]
    simp only [decide_eq_true_eq]
    omega
  simp only [startedOneShot, Timer.mkTimer, Timer.start] at hend ⊢
  simp [Timer.update, hend, Timer.stop]

theorem runPolls_all_early (d t0 : Nat) (hd : 0 < d) :
    ∀ polls : List Nat, (∀ p ∈ polls, p < t0 + d) →
      (startedOneShot d t0).runPolls polls = (startedOneShot d t0, 0) := by
  intro polls
  induction polls with
  | nil => intro _; rfl
  | cons p rest ih =>
    intro hall
    have hp : p < t0 + d := hall p (by simp)
    have hrest : ∀ q ∈ rest, q < t0 + d := by
      intro q hq
      exact hall q (by simp [hq])
    simp [Timer.runPolls, startedOneShot_update_early d t0 p _ hd hp, ih hrest]

theorem runPolls_some_late (d t0 : Nat) (hd : 0 < d) :
    ∀ polls : List Nat, (∃ p ∈ polls, t0 + d ≤ p) →
      (startedOneShot d t0).runPolls polls = ((startedOneShot d t0).stop, 1) := by
  intro polls
  induction polls with
  | nil => intro h; simp at h
  | cons p rest ih =>
    intro h
    by_cases hp : t0 + d ≤ p
    · have hstop : ((startedOneShot d t0).stop).is_running = false := rfl
      simp [Timer.runPolls, startedOneShot_update_late d t0 p hp,
            Timer.runPolls_not_running _ rest hstop]
    · have hp2 : p < t0 + d := by omega
      obtain ⟨q, hq, hql⟩ := h
      have hqr : q ∈ rest := by
        rcases List.mem_cons.mp hq with h1 | h1
        · exact absurd (h1 ▸ hql) hp
        · exact h1
      simp [Timer.runPolls, startedOneShot_update_early d t0 p _ hd hp2,
            ih ⟨q, hqr, hql⟩]

end Sender

/-- Claim C1: the spec demands that `update()` be reentrancy-safe — the
one-shot/repeat handling after the callback must respect a `start()` done by
the callback itself, so a one-shot timer restarted by its own callback (as
`fish_timeout` does via `spawn_new_fish` calling `fish_timer.start()`) is
still running when `update()` returns.  The code violates this: on the
concrete expired fish timer below, `update` detects expiry and fires the
callback (which restarts the timer), yet unconditionally executes
`self.stop()` afterwards, so the timer ends up NOT running. -/
theorem c1_update_overwrites_callback_restart :
    (Sender.startedOneShot FISH_DURATION_MS 0).has_ended 5000 = true
  ∧ ((Sender.startedOneShot FISH_DURATION_MS 0).update 5000
       (fun t => t.start 5000)).2 = true
  ∧ ((Sender.startedOneShot FISH_DURATION_MS 0).update 5000
       (fun t => t.start 5000)).1.is_running = false := by
  exact ⟨by decide, by decide, by decide⟩

/-- Claim C2: a one-shot timer of duration `d > 0` started at `t0` reports
`has_ended = false` strictly before `t0 + d` and `true` from `t0 + d` on;
across any poll sequence its callback fires exactly once as soon as some
poll falls at or after `t0 + d` (and never before), and the timer is stopped
after firing. -/
theorem c2_one_shot_timer_semantics (d t0 : Nat) (polls : List Nat)
    (hd : 0 < d) :
    (∀ now, now < t0 + d → (Sender.startedOneShot d t0).has_ended now = false)
  ∧ (∀ now, t0 + d ≤ now → (Sender.startedOneShot d t0).has_ended now = true)
  ∧ ((∀ p ∈ polls, p < t0 + d) →
       (Sender.startedOneShot d t0).runPolls polls
         = (Sender.startedOneShot d t0, 0))
  ∧ ((∃ p ∈ polls, t0 + d ≤ p) →
       ((Sender.startedOneShot d t0).runPolls polls).2 = 1
     ∧ ((Sender.startedOneShot d t0).runPolls polls).1.is_running = false) := by
  refine ⟨?_, ?_, Sender.runPolls_all_early d t0 hd polls, ?_⟩
  · intro now hnow
    rw [Sender.startedOneShot_has_ended]
    simp only [decide_eq_false_iff_not]
    omega
  · intro now hnow
    rw [Sender.startedOneShot_has_ended]
    simp only [decide_eq_true_eq]
    omega
  · intro hex
    rw [Sender.runPolls_some_late d t0 hd polls hex]
    exact ⟨rfl, rfl⟩

/-- Witness for C2: concrete 5000 ms one-shot timer started at 0, polled at
1000, 4999, 5000 and 9000 ms. -/
theorem c2_one_shot_timer_semantics_witness :
    (Sender.startedOneShot 5000 0).has_ended 4999 = false
  ∧ (Sender.startedOneShot 5000 0).has_ended 5000 = true
  ∧ ((Sender.startedOneShot 5000 0).runPolls [1000, 4999, 5000, 9000]).2 = 1
  ∧ ((Sender.startedOneShot 5000 0).runPolls
       [1000, 4999, 5000, 9000]).1.is_running = false := by
  have h := c2_one_shot_timer_semantics 5000 0 [1000, 4999, 5000, 9000] (by decide)
  have hlate : ∃ p ∈ [1000, 4999, 5000, 9000], 0 + 5000 ≤ p :=
    ⟨5000, by decide, by decide⟩
  exact ⟨h.1 4999 (by decide), h.2.1 5000 (by decide),
         (h.2.2.2 hlate).1, (h.2.2.2 hlate).2⟩

/-- Claim C3: with draws in `[0, NUM_FISH)` (the contract of
`randint(0, NUM_FISH - 1)` in Sender's `spawn_new_fish`), a completed spawn
leaves `current_fish` inside `[0, NUM_FISH)` and different from the
immediately prior fish, thanks to the resampling loop. -/
theorem c3_spawn_range_and_change (g g1 : Sender.FishingGame) (now : Nat)
    (draws : List Int)
    (hN : 2 ≤ NUM_FISH)
    (hdraws : ∀ d ∈ draws, 0 ≤ d ∧ d < NUM_FISH)
    (h : Sender.spawn_new_fish g now draws = some g1) :
    (0 ≤ g1.current_fish ∧ g1.current_fish < NUM_FISH)
  ∧ g1.current_fish ≠ g.current_fish := by
  obtain ⟨f, hsd, h1⟩ := Sender.spawn_new_fish_spec g g1 now draws h
  obtain ⟨hm, hne, _⟩ := spawnDraw_spec g.current_fish draws f hsd
  have hb := hdraws f hm
  subst h1
  exact ⟨hb, hne⟩

/-- Witness for C3: `sampleSPlaying` (active fish 2) spawns with draws
`[2, 4]` and ends on fish 4. -/
theorem c3_spawn_range_and_change_witness :
    (0 ≤ sampleSpawnRes.current_fish ∧ sampleSpawnRes.current_fish < NUM_FISH)
  ∧ sampleSpawnRes.current_fish ≠ sampleSPlaying.current_fish :=
  c3_spawn_range_and_change sampleSPlaying sampleSpawnRes 8000 [2, 4]
    (by decide) (by decide) (by decide)

/-- Claim C4: a serial catch event during PLAYING whose id matches the
active fish (`int(ch) - 1 == current_fish`) increments the score by exactly
1, moves to a different in-range fish, restarts the fish timer
(stop-then-start at the catch instant) and stays PLAYING. -/
theorem c4_catch_active_target (g g1 : Sender.FishingGame) (ch : Char)
    (now : Nat) (draws : List Int)
    (hs : g.state = GState.PLAYING)
    (hch : ch ∈ digitChars)
    (heq : intOfDigit ch - 1 = g.current_fish)
    (hdraws : ∀ d ∈ draws, 0 ≤ d ∧ d < NUM_FISH)
    (h : Sender.check_inputs_serial g ch now draws = some g1) :
    g1.score = g.score + 1
  ∧ g1.current_fish ≠ g.current_fish
  ∧ (0 ≤ g1.current_fish ∧ g1.current_fish < NUM_FISH)
  ∧ g1.fish_timer = (g.fish_timer.stop).start now
  ∧ g1.state = GState.PLAYING := by
  rw [Sender.check_inputs_serial, if_pos hch, if_pos heq, Sender.catch_fish,
      if_neg (by simp [hs])] at h
  obtain ⟨f, hsd, h1⟩ := Sender.spawn_new_fish_spec _ g1 now draws h
  obtain ⟨hm, hne, _⟩ := spawnDraw_spec _ draws f hsd
  have hb := hdraws f hm
  subst h1
  exact ⟨rfl, hne, hb, rfl, hs⟩

/-- Witness for C4: serial character '3' catches the active fish 2 of
`sampleSPlaying` at instant 8000 with draws `[2, 4]`. -/
theorem c4_catch_active_target_witness :
    sampleCatchRes.score = sampleSPlaying.score + 1
  ∧ sampleCatchRes.current_fish ≠ sampleSPlaying.current_fish
  ∧ (0 ≤ sampleCatchRes.current_fish ∧ sampleCatchRes.current_fish < NUM_FISH)
  ∧ sampleCatchRes.fish_timer = (sampleSPlaying.fish_timer.stop).start 8000
  ∧ sampleCatchRes.state = GState.PLAYING :=
  c4_catch_active_target sampleSPlaying sampleCatchRes '3' 8000 [2, 4]
    rfl (by decide) (by decide) (by decide) (by decide)

/-- Claim C5: `end_game` (the game timer's expiry callback, invoked while
PLAYING) moves the game to GAME_OVER, clears the active fish to the `-1`
sentinel, stops the fish timer, and every subsequent fish-timer poll is a
no-op: the timer is unchanged and no callback fires, whatever that callback
would do. -/
theorem c5_game_timer_expiry (g : Sender.FishingGame)
    (hs : g.state = GState.PLAYING) :
    (Sender.end_game g).state = GState.GAME_OVER
  ∧ (Sender.end_game g).current_fish = -1
  ∧ ((Sender.end_game g).fish_timer).is_running = false
  ∧ ∀ (now : Nat) (cb : Sender.Timer → Sender.Timer),
      ((Sender.end_game g).fish_timer).update now cb
        = ((Sender.end_game g).fish_timer, false) := by
  refine ⟨rfl, rfl, rfl, ?_⟩
  intro now cb
  exact Sender.Timer.update_not_running _ now cb rfl

/-- Witness for C5: `end_game` on the concrete PLAYING game
`sampleSPlaying`, with a subsequent fish-timer poll at 31000 whose callback
would even try to restart the timer. -/
theorem c5_game_timer_expiry_witness :
    (Sender.end_game sampleSPlaying).state = GState.GAME_OVER
  ∧ (Sender.end_game sampleSPlaying).current_fish = -1
  ∧ ((Sender.end_game sampleSPlaying).fish_timer).is_running = false
  ∧ ((Sender.end_game sampleSPlaying).fish_timer).update 31000
       (fun t => t.start 31000)
       = ((Sender.end_game sampleSPlaying).fish_timer, false) := by
  have h := c5_game_timer_expiry sampleSPlaying rfl
  exact ⟨h.1, h.2.1, h.2.2.1, h.2.2.2 31000 (fun t => t.start 31000)⟩

/-- Claim C6: from any state, `reset_game` returns to IDLE with zero score
and no active fish, stops every timer (three in the Sender variant, four in
the Project variant), and the Sender variant broadcasts exactly one `OFF`
to the actuators. -/
theorem c6_reset_game_effects (g : Sender.FishingGame)
    (p : Project.FishingGame) :
    (Sender.reset_game g).state = GState.IDLE
  ∧ (Sender.reset_game g).score = 0
  ∧ (Sender.reset_game g).current_fish = -1
  ∧ ((Sender.reset_game g).game_timer).is_running = false
  ∧ ((Sender.reset_game g).fish_timer).is_running = false
  ∧ ((Sender.reset_game g).display_timer).is_running = false
  ∧ (Sender.reset_game g).sent = g.sent ++ ["OFF"]
  ∧ (Project.reset_game p).state = GState.IDLE
  ∧ (Project.reset_game p).score = 0
  ∧ (Project.reset_game p).current_fish = -1
  ∧ ((Project.reset_game p).game_timer).is_running = false
  ∧ ((Project.reset_game p).fish_timer).is_running = false
  ∧ ((Project.reset_game p).lcd_timer).is_running = false
  ∧ ((Project.reset_game p).led_timer).is_running = false :=
  ⟨rfl, rfl, rfl, rfl, rfl, rfl, rfl, rfl, rfl, rfl, rfl, rfl, rfl, rfl⟩

namespace Project

theorem pSpawn_new_fish_spec (g g1 : FishingGame) (now : Nat)
    (draws : List Int) (h : spawn_new_fish g now draws = some g1) :
    ∃ f, spawnDraw g.current_fish draws = some f
       ∧ g1 = { g with current_fish := f,
                       fish_timer := g.fish_timer.start now } := by
  rw [spawn_new_fish] at h
  cases hsd : spawnDraw g.current_fish draws with
  | none => rw [hsd] at h; cases h
  | some f =>
    rw [hsd] at h
    injection h with h1
    exact ⟨f, rfl, h1.symm⟩

theorem pCatch_fish_trigger (g g1 : FishingGame) (k : Int) (now : Nat)
    (draws : List Int) (h : catch_fish g k now draws = some g1) :
    g1.sensor_triggered = g.sensor_triggered := by
  rw [catch_fish] at h
  split at h
  · injection h with h1; subst h1; rfl
  · split at h
    · obtain ⟨f, _, h1⟩ := pSpawn_new_fish_spec _ g1 now draws h
      subst h1
      rfl
    · injection h with h1; subst h1; rfl

theorem pCatch_fish_hit (g g1 : FishingGame) (now : Nat) (draws : List Int)
    (hs : g.state = GState.PLAYING)
    (h : catch_fish g g.current_fish now draws = some g1) :
    g1.score = g.score + 1 ∧ g1.state = GState.PLAYING
  ∧ g1.sensor_triggered = g.sensor_triggered := by
  rw [catch_fish, if_neg (by simp [hs]), if_pos rfl] at h
  obtain ⟨f, hsd, h1⟩ := pSpawn_new_fish_spec _ g1 now draws h
  subst h1
  exact ⟨rfl, hs, rfl⟩

theorem pHallRun_locked (samples : List (Nat × Nat × List Int)) :
    ∀ g : FishingGame, g.sensor_triggered = true →
      (∀ s ∈ samples, s.1 < HALL_THRESHOLD) →
      hallRun g samples = some g := by
  induction samples with
  | nil => intro g _ _; rfl
  | cons s rest ih =>
    intro g htrig hall
    have hnear : s.1 < HALL_THRESHOLD := hall s (by simp)
    have hstep : check_hall_sensor g s.1 s.2.1 s.2.2 = some g := by
      rw [check_hall_sensor]
      by_cases hp : g.state ≠ GState.PLAYING
      · rw [if_pos hp]
      · rw [if_neg hp, if_neg (by simp [htrig]), if_neg (by simp [hnear])]
    simp only [hallRun, hstep]
    exact ih g htrig (fun q hq => hall q (by simp [hq]))

theorem pHallRun_all_near_score (samples : List (Nat × Nat × List Int)) :
    ∀ g g2 : FishingGame,
      (∀ s ∈ samples, s.1 < HALL_THRESHOLD) →
      hallRun g samples = some g2 → g2.score ≤ g.score + 1 := by
  induction samples with
  | nil =>
    intro g g2 _ h
    injection h with h1
    subst h1
    omega
  | cons s rest ih =>
    intro g g2 hall h
    have hnear : s.1 < HALL_THRESHOLD := hall s (by simp)
    have hrest : ∀ q ∈ rest, q.1 < HALL_THRESHOLD :=
      fun q hq => hall q (by simp [hq])
    by_cases hp : g.state ≠ GState.PLAYING
    · have hstep : check_hall_sensor g s.1 s.2.1 s.2.2 = some g := by
        rw [check_hall_sensor, if_pos hp]
      simp only [hallRun, hstep] at h
      exact ih g g2 hrest h
    · by_cases htr : g.sensor_triggered = false
      · have hstep : check_hall_sensor g s.1 s.2.1 s.2.2
            = catch_fish { g with sensor_triggered := true }
                g.current_fish s.2.1 s.2.2 := by
          rw [check_hall_sensor, if_neg hp, if_pos ⟨hnear, htr⟩]
        simp only [hallRun, hstep] at h
        cases hc : catch_fish { g with sensor_triggered := true }
            g.current_fish s.2.1 s.2.2 with
        | none => rw [hc] at h; cases h
        | some g1 =>
          rw [hc] at h
          have hps : ({ g with sensor_triggered := true } :
              FishingGame).state = GState.PLAYING := not_not.mp hp
          have hfields := pCatch_fish_hit _ g1 _ _ hps hc
          have htrig1 : g1.sensor_triggered = true := hfields.2.2
          have hlock := pHallRun_locked rest g1 htrig1 hrest
          have h2 : hallRun g1 rest = some g2 := h
          rw [hlock] at h2
          injection h2 with h1
          subst h1
          have hscore : g1.score = g.score + 1 := hfields.1
          omega
      · have htrig : g.sensor_triggered = true := by
          revert htr
          cases g.sensor_triggered <;> simp
        have hlock := pHallRun_locked (s :: rest) g htrig hall
        rw [hlock] at h
        injection h with h1
        subst h1
        omega

end Project

/-- Claim C7: in Project's `check_hall_sensor`, the trigger lock is set
(false to true) only by a "near" sample (`val < HALL_THRESHOLD`) while
PLAYING and with the lock previously clear (i.e. the first near sample
after an away sample cleared it), it is cleared (true to false) only by an
"away" sample, and across any run of loop iterations whose samples are all
"near", the score rises by at most 1: a continuously-near signal yields at
most one catch until an away sample re-arms the lock. -/
theorem c7_trigger_lock (g g1 : Project.FishingGame) (val now : Nat)
    (draws : List Int) :
    (Project.check_hall_sensor g val now draws = some g1 →
       ((g.sensor_triggered = false ∧ g1.sensor_triggered = true) →
          g.state = GState.PLAYING ∧ val < HALL_THRESHOLD)
     ∧ ((g.sensor_triggered = true ∧ g1.sensor_triggered = false) →
          HALL_THRESHOLD ≤ val))
  ∧ (∀ (samples : List (Nat × Nat × List Int))
       (g2 : Project.FishingGame),
       (∀ s ∈ samples, s.1 < HALL_THRESHOLD) →
       Project.hallRun g samples = some g2 →
       g2.score ≤ g.score + 1) := by
  constructor
  · intro h
    rw [Project.check_hall_sensor] at h
    by_cases hp : g.state ≠ GState.PLAYING
    · rw [if_pos hp] at h
      injection h with h1
      subst h1
      constructor
      · rintro ⟨hf, ht⟩
        rw [hf] at ht
        cases ht
      · rintro ⟨hf, ht⟩
        rw [hf] at ht
        cases ht
    · rw [if_neg hp] at h
      by_cases hnear : val < HALL_THRESHOLD
      · by_cases htr : g.sensor_triggered = false
        · rw [if_pos ⟨hnear, htr⟩] at h
          have hpres := Project.pCatch_fish_trigger _ g1 _ now draws h
          constructor
          · intro _
            exact ⟨not_not.mp hp, hnear⟩
          · rintro ⟨ht, _⟩
            rw [htr] at ht
            cases ht
        · rw [if_neg (fun hcon => htr hcon.2), if_neg (not_not_intro hnear)] at h
          injection h with h1
          subst h1
          constructor
          · rintro ⟨hf, _⟩
            exact absurd hf htr
          · rintro ⟨_, ht⟩
            rw [show g.sensor_triggered = true by
                  revert htr; cases g.sensor_triggered <;> simp] at ht
            cases ht
      · rw [if_neg (fun hcon => hnear hcon.1), if_pos hnear] at h
        injection h with h1
        subst h1
        constructor
        · rintro ⟨_, ht⟩
          cases ht
        · intro _
          omega
  · intro samples g2 hall h
    exact Project.pHallRun_all_near_score samples g g2 hall h

/-- Witness for C7: a near sample (value 100) on `samplePPlaying` sets the
lock while PLAYING, and a run of two consecutive near iterations raises the
score by exactly one (bounded by one catch). -/
theorem c7_trigger_lock_witness :
    (samplePPlaying.state = GState.PLAYING ∧ 100 < HALL_THRESHOLD)
  ∧ sampleHallRes.score ≤ samplePPlaying.score + 1 := by
  have h := c7_trigger_lock samplePPlaying sampleHallRes 100 6500 [3, 2]
  exact ⟨(h.1 (by decide)).1 ⟨rfl, rfl⟩,
         h.2 [(100, 6500, [3, 2]), (100, 6510, [3, 2])] sampleHallRes
           (by decide) (by decide)⟩

/-- Counterexample for C8: in the Project variant, the debug serial command
`s` received in GAME_OVER is ignored (the handler guards it with
`state == "IDLE"`), while the very same command from IDLE starts the game —
so a start event in GAME_OVER is NOT identical to one in IDLE for every
input path that delivers it. -/
theorem c8_project_serial_start_ignored_in_game_over :
    Project.check_serial_input samplePGameOver 's' 40000 [2]
      = some samplePGameOver
  ∧ Project.check_serial_input { samplePGameOver with state := GState.IDLE }
      's' 40000 [2] = some pStartRes
  ∧ pStartRes.state = GState.PLAYING
  ∧ samplePGameOver.state = GState.GAME_OVER := by
  exact ⟨by decide, by decide, rfl, rfl⟩

/-- Claim C8 (amended): a start event in GAME_OVER has exactly the effect of
one in IDLE for the start handlers themselves and for the input paths that
deliver start unconditionally — the start button in both variants and the
Sender variant's serial `s` (shown here: Sender's serial dispatch gives
literally identical results from GAME_OVER and from IDLE, and from
GAME_OVER it enters PLAYING with score 0, game timer started, fish timer
started by the spawn); the Project variant's serial `s` is the exception
recorded in the counterexample. -/
theorem c8_start_game_over_equals_idle (g : Sender.FishingGame)
    (p : Project.FishingGame) (now : Nat) (draws : List Int) :
    Sender.check_inputs_serial { g with state := GState.GAME_OVER } 's' now draws
      = Sender.check_inputs_serial { g with state := GState.IDLE } 's' now draws
  ∧ Project.start_game { p with state := GState.GAME_OVER } now draws
      = Project.start_game { p with state := GState.IDLE } now draws
  ∧ (∀ g1, Sender.check_inputs_serial { g with state := GState.GAME_OVER }
        's' now draws = some g1 →
      g1.state = GState.PLAYING ∧ g1.score = 0
    ∧ g1.game_timer = g.game_timer.start now
    ∧ g1.fish_timer = g.fish_timer.start now) := by
  refine ⟨rfl, rfl, ?_⟩
  intro g1 h
  have h2 : Sender.spawn_new_fish
      { g with state := GState.PLAYING, score := 0,
               game_timer := g.game_timer.start now,
               display_timer := g.display_timer.start now,
               sent := g.sent ++ Sender.startAnim } now draws = some g1 := h
  obtain ⟨f, hsd, h1⟩ := Sender.spawn_new_fish_spec _ g1 now draws h2
  subst h1
  exact ⟨rfl, rfl, rfl, rfl⟩

/-- Witness for C8 (amended): Sender serial start from a GAME_OVER re-basing
of `sampleSPlaying` at instant 40000 with draw 4. -/
theorem c8_start_game_over_equals_idle_witness :
    Sender.check_inputs_serial { sampleSPlaying with state := GState.GAME_OVER }
        's' 40000 [4]
      = Sender.check_inputs_serial { sampleSPlaying with state := GState.IDLE }
        's' 40000 [4]
  ∧ sStartRes.state = GState.PLAYING ∧ sStartRes.score = 0
  ∧ sStartRes.game_timer = sampleSPlaying.game_timer.start 40000
  ∧ sStartRes.fish_timer = sampleSPlaying.fish_timer.start 40000 := by
  have h := c8_start_game_over_equals_idle sampleSPlaying samplePGameOver
    40000 [4]
  exact ⟨h.1, h.2.2 sStartRes (by decide)⟩

/-- Claim C9: a serial catch event whose id differs from the active fish,
and any catch while not PLAYING, leaves the game exactly unchanged (state,
score, fish and timers): the Sender dispatch returns the very same game, as
does Sender's `catch_fish` when not PLAYING, and Project's `catch_fish` on
a wrong id or outside PLAYING. -/
theorem c9_catch_ignored (g : Sender.FishingGame) (p : Project.FishingGame)
    (ch : Char) (k : Int) (now : Nat) (draws : List Int) :
    (ch ∈ digitChars → intOfDigit ch - 1 ≠ g.current_fish →
       Sender.check_inputs_serial g ch now draws = some g)
  ∧ (g.state ≠ GState.PLAYING → Sender.catch_fish g now draws = some g)
  ∧ (k ≠ p.current_fish → Project.catch_fish p k now draws = some p)
  ∧ (p.state ≠ GState.PLAYING → Project.catch_fish p k now draws = some p) := by
  refine ⟨?_, ?_, ?_, ?_⟩
  · intro hch hne
    rw [Sender.check_inputs_serial, if_pos hch, if_neg hne]
  · intro hs
    rw [Sender.catch_fish, if_pos hs]
  · intro hne
    rw [Project.catch_fish]
    by_cases hs : p.state ≠ GState.PLAYING
    · rw [if_pos hs]
    · rw [if_neg hs, if_neg hne]
  · intro hs
    rw [Project.catch_fish, if_pos hs]

/-- Witness for C9: serial '1' against active fish 2, Sender catch while
IDLE, Project catch of wrong fish 1 against active fish 3, and Project
catch while GAME_OVER, all leave the respective games unchanged. -/
theorem c9_catch_ignored_witness :
    Sender.check_inputs_serial sampleSPlaying '1' 8000 [4]
      = some sampleSPlaying
  ∧ Sender.catch_fish { sampleSPlaying with state := GState.IDLE } 8000 [4]
      = some { sampleSPlaying with state := GState.IDLE }
  ∧ Project.catch_fish samplePPlaying 1 8000 [4] = some samplePPlaying
  ∧ Project.catch_fish samplePGameOver 3 8000 [4]
      = some samplePGameOver := by
  have h1 := c9_catch_ignored sampleSPlaying samplePPlaying '1' 1 8000 [4]
  have h2 := c9_catch_ignored { sampleSPlaying with state := GState.IDLE }
    samplePGameOver '1' 3 8000 [4]
  exact ⟨h1.1 (by decide) (by decide), h2.2.1 (by decide),
         h1.2.2.1 (by decide), h2.2.2.2 (by decide)⟩

/-- Claim C10: `start_game` is guarded by `state != "PLAYING"` in both
variants, so a start event received while PLAYING is a complete no-op: the
returned game is the very same record (state, score, fish, every timer
unchanged). -/
theorem c10_start_while_playing_noop (g : Sender.FishingGame)
    (p : Project.FishingGame) (now : Nat) (draws : List Int) :
    (g.state = GState.PLAYING → Sender.start_game g now draws = some g)
  ∧ (p.state = GState.PLAYING → Project.start_game p now draws = some p) := by
  constructor
  · intro hs
    rw [Sender.start_game, if_neg (by simp [hs])]
  · intro hs
    rw [Project.start_game, if_neg (by simp [hs])]

/-- Witness for C10: start on the concrete PLAYING games of both variants. -/
theorem c10_start_while_playing_noop_witness :
    Sender.start_game sampleSPlaying 8000 [4] = some sampleSPlaying
  ∧ Project.start_game samplePPlaying 8000 [4] = some samplePPlaying := by
  have h := c10_start_while_playing_noop sampleSPlaying samplePPlaying 8000 [4]
  exact ⟨h.1 rfl, h.2 rfl⟩
